import Mathlib

/-!
Shallow embedding of `src/server.js` (SMS to Telegram forwarding service).

The server keeps an in-memory array `devices`, guards every `/api/*` route
with a rate limiter and a shared-secret header check (`checkApiKey`), and
exposes three POST handlers: `/api/sendToTelegram`, `/api/registerDevice`
and `/api/processSms`.  JavaScript truthiness of request-body values is
modelled by `JSValue`; the outbound HTTP call performed by axios is
modelled by an oracle `net : RelayCall → Except String Unit` whose error
carries the transport error message.  Handlers are pure functions from the
registry state (plus the request body and oracles) to a `HandlerResult`
recording the new registry, the JSON response and the list of outbound
relay calls attempted.
-/

namespace SmsServer

/-- JSON-ish values as they appear in an Express request body
(`req.body.<field>`); an absent field is `Option.none` at the use site. -/
inductive JSValue where
  | str (s : String)
  | num (n : Int)
  | bool (b : Bool)
  | null
deriving Repr, DecidableEq, Inhabited

/-- JavaScript truthiness of a value: `""`, `0`, `false` and `null` are
falsy, everything else here is truthy. -/
def JSValue.truthy : JSValue → Bool
  | .str s => !s.isEmpty
  | .num n => n != 0
  | .bool b => b
  | .null => false

/-- Truthiness of a possibly absent body field (`undefined` is falsy). -/
def jsTruthy : Option JSValue → Bool
  | none => false
  | some v => v.truthy

/-- JavaScript string conversion, as used by template literals. -/
def jsToString : JSValue → String
  | .str s => s
  | .num n => toString n
  | .bool b => if b then "true" else "false"
  | .null => "null"

/-- Digit-run accumulator for `parseIntJS`. -/
def parseIntDigits : List Char → Nat → Bool → Option Nat
  | [], acc, seen => if seen then some acc else none
  | c :: cs, acc, seen =>
    if c.isDigit then parseIntDigits cs (10 * acc + (c.toNat - 48)) true
    else if seen then some acc else none

/-- JavaScript `parseInt` on a string (decimal inputs): skip leading
whitespace, optional sign, then the longest leading digit run; `none`
models `NaN`. -/
def parseIntJS (s : String) : Option Int :=
  match s.data.dropWhile (fun c => c.isWhitespace) with
  | '-' :: cs => (parseIntDigits cs 0 false).map (fun n => -(n : Int))
  | '+' :: cs => (parseIntDigits cs 0 false).map (fun n => (n : Int))
  | cs => (parseIntDigits cs 0 false).map (fun n => (n : Int))

/-- JavaScript `parseInt(value)` on a body value: numbers parse to
themselves (integral model), strings are parsed, booleans and null give
`NaN` (`none`). -/
def jsParseInt : JSValue → Option Int
  | .num n => some n
  | .str s => parseIntJS s
  | .bool _ => none
  | .null => none

/-- One record of the in-memory `devices` array: `{ deviceId, botToken,
chatId }`, each holding the body value it was registered with. -/
structure Device where
  deviceId : JSValue
  botToken : JSValue
  chatId : JSValue
deriving Repr, DecidableEq

/-- One outbound axios POST to the Telegram `sendMessage` endpoint: the
bot token is embedded in the URL, the payload carries `chat_id`, `text`
and `parse_mode: 'HTML'`. -/
structure RelayCall where
  botToken : JSValue
  chatId : JSValue
  text : JSValue
  parseMode : String
deriving Repr, DecidableEq

/-- JSON response of a handler: HTTP status code plus the uniform
`{status, message}` envelope, with the optional echoed `deviceId`. -/
structure Response where
  code : Nat
  status : String
  message : String
  deviceId : Option JSValue
deriving Repr, DecidableEq

/-- Result of running one request: the registry after the request, the
response sent, and every outbound relay call attempted. -/
structure HandlerResult where
  devices : List Device
  response : Response
  calls : List RelayCall
deriving Repr, DecidableEq

/-- Body of `POST /api/sendToTelegram`: `{ botToken, chatId, message }`. -/
structure SendBody where
  botToken : Option JSValue
  chatId : Option JSValue
  message : Option JSValue
deriving Repr, DecidableEq

/-- Body of `POST /api/registerDevice`: `{ deviceId, botToken, chatId }`. -/
structure RegisterBody where
  deviceId : Option JSValue
  botToken : Option JSValue
  chatId : Option JSValue
deriving Repr, DecidableEq

/-- Body of `POST /api/processSms`:
`{ deviceId, sender, message, timestamp }`. -/
structure ProcessSmsBody where
  deviceId : Option JSValue
  sender : Option JSValue
  message : Option JSValue
  timestamp : Option JSValue
deriving Repr, DecidableEq

/-- Response of `checkApiKey` rejection (HTTP 401). -/
def unauthorizedResp : Response :=
  ⟨401, "error", "Недействительный API-ключ", none⟩

/-- Response of the rate limiter (`message` option of `apiLimiter`;
status code 429 is the limiter default). -/
def rateLimitResp : Response :=
  ⟨429, "error", "Слишком много запросов с этого IP, пожалуйста, попробуйте позже.", none⟩

/-- Missing-field response of `/api/sendToTelegram` (HTTP 400). -/
def sendMissingResp : Response :=
  ⟨400, "error", "Отсутствуют обязательные параметры: botToken, chatId, message", none⟩

/-- Missing-field response of `/api/registerDevice` (HTTP 400). -/
def regMissingResp : Response :=
  ⟨400, "error", "Отсутствуют обязательные параметры: deviceId, botToken, chatId", none⟩

/-- Missing-field response of `/api/processSms` (HTTP 400). -/
def smsMissingResp : Response :=
  ⟨400, "error", "Отсутствуют обязательные параметры: deviceId, sender, message", none⟩

/-- Unknown-device response of `/api/processSms` (HTTP 404). -/
def deviceNotFoundResp : Response :=
  ⟨404, "error", "Устройство не зарегистрировано", none⟩

/-- Success response of `/api/sendToTelegram`. -/
def sendSuccessResp : Response :=
  ⟨200, "success", "Сообщение успешно отправлено", none⟩

/-- Success response of `/api/registerDevice` when the device existed. -/
def regUpdatedResp (deviceId : JSValue) : Response :=
  ⟨200, "success", "Устройство успешно обновлено", some deviceId⟩

/-- Success response of `/api/registerDevice` when the device was new. -/
def regCreatedResp (deviceId : JSValue) : Response :=
  ⟨200, "success", "Устройство успешно зарегистрировано", some deviceId⟩

/-- Success response of `/api/processSms`. -/
def smsSuccessResp : Response :=
  ⟨200, "success", "SMS успешно обработано и переслано в Telegram", none⟩

/-- Handler-level catch of a thrown relay error (HTTP 500, message is the
thrown `error.message`). -/
def err500Resp (message : String) : Response :=
  ⟨500, "error", message, none⟩

/-- Truthiness of a possibly absent string header value. -/
def jsTruthyStr : Option String → Bool
  | none => false
  | some s => !s.isEmpty

/-- The `checkApiKey` middleware condition: the request passes iff the
`x-api-key` header is truthy and strictly equal (`===`) to
`process.env.API_KEY` (`none` models an unset variable, which no header
value is `===` to). -/
def checkApiKey (envApiKey : Option String) (headerApiKey : Option String) : Bool :=
  jsTruthyStr headerApiKey && headerApiKey == envApiKey

/-- The `sendToTelegram` function: performs one axios POST (modelled by
the oracle `net`); on failure it throws
`Ошибка отправки в Telegram: <cause>`.  The second component records the
single call attempted. -/
def sendToTelegram (net : RelayCall → Except String Unit)
    (botToken chatId message : JSValue) : Except String Unit × List RelayCall :=
  let call : RelayCall := ⟨botToken, chatId, message, "HTML"⟩
  match net call with
  | Except.ok _ => (Except.ok (), [call])
  | Except.error e => (Except.error ("Ошибка отправки в Telegram: " ++ e), [call])

/-- Route handler of `POST /api/sendToTelegram` (after the API-key gate). -/
def sendToTelegramHandler (net : RelayCall → Except String Unit)
    (st : List Device) (b : SendBody) : HandlerResult :=
  if !jsTruthy b.botToken || !jsTruthy b.chatId || !jsTruthy b.message then
    ⟨st, sendMissingResp, []⟩
  else
    match sendToTelegram net (b.botToken.getD JSValue.null)
        (b.chatId.getD JSValue.null) (b.message.getD JSValue.null) with
    | (Except.ok _, calls) => ⟨st, sendSuccessResp, calls⟩
    | (Except.error e, calls) => ⟨st, err500Resp e, calls⟩

/-- Route handler of `POST /api/registerDevice` (after the API-key gate):
validate, then `findIndex` on `deviceId` and either overwrite the record
at that index or `push` a new one.  It never performs a relay call. -/
def registerDeviceHandler (st : List Device) (b : RegisterBody) : HandlerResult :=
  if !jsTruthy b.deviceId || !jsTruthy b.botToken || !jsTruthy b.chatId then
    ⟨st, regMissingResp, []⟩
  else
    let deviceId := b.deviceId.getD JSValue.null
    let botToken := b.botToken.getD JSValue.null
    let chatId := b.chatId.getD JSValue.null
    match st.findIdx? (fun device => device.deviceId == deviceId) with
    | some i => ⟨st.set i ⟨deviceId, botToken, chatId⟩, regUpdatedResp deviceId, []⟩
    | none => ⟨st ++ [⟨deviceId, botToken, chatId⟩], regCreatedResp deviceId, []⟩

/-- The notification body `telegramMessage` built by `/api/processSms`. -/
def smsTemplate (sender : JSValue) (formattedTime : String) (message : JSValue) : String :=
  "📱 <b>Новое SMS</b>\n\nОт: <b>" ++ jsToString sender ++ "</b>\nВремя: "
    ++ formattedTime ++ "\n\nСообщение:\n" ++ jsToString message

/-- Route handler of `POST /api/processSms` (after the API-key gate).
`fmt` models `toLocaleString('ru-RU')` on a `Date` built from an epoch
value (`none` is an invalid date), and `now` the current epoch time:
the code renders `fmt (jsParseInt timestamp)` when `timestamp` is truthy
and `fmt (some now)` otherwise. -/
def processSmsHandler (net : RelayCall → Except String Unit)
    (fmt : Option Int → String) (now : Int)
    (st : List Device) (b : ProcessSmsBody) : HandlerResult :=
  if !jsTruthy b.deviceId || !jsTruthy b.sender || !jsTruthy b.message then
    ⟨st, smsMissingResp, []⟩
  else
    match st.find? (fun device => device.deviceId == b.deviceId.getD JSValue.null) with
    | none => ⟨st, deviceNotFoundResp, []⟩
    | some device =>
      let formattedTime :=
        if jsTruthy b.timestamp then fmt (jsParseInt (b.timestamp.getD JSValue.null))
        else fmt (some now)
      let telegramMessage :=
        smsTemplate (b.sender.getD JSValue.null) formattedTime (b.message.getD JSValue.null)
      match sendToTelegram net device.botToken device.chatId (JSValue.str telegramMessage) with
      | (Except.ok _, calls) => ⟨st, smsSuccessResp, calls⟩
      | (Except.error e, calls) => ⟨st, err500Resp e, calls⟩

/-- An `/api/*` route behind the `checkApiKey` middleware: on a failed
key check the request is answered with 401 and the handler never runs. -/
def gatedRoute (envApiKey headerApiKey : Option String) (st : List Device)
    (handler : List Device → HandlerResult) : HandlerResult :=
  if checkApiKey envApiKey headerApiKey then handler st
  else ⟨st, unauthorizedResp, []⟩

/-- The `windowMs` option of `apiLimiter`: 15 minutes in milliseconds. -/
def rateLimitWindowMs : Int := 15 * 60 * 1000

/-- The `max` option of `apiLimiter`: 100 requests per window. -/
def rateLimitMax : Nat := 100

/-- Modelled from the spec: the request-counting semantics of the
`express-rate-limit` middleware are library code, not part of this
repository's source; the spec describes a sliding window of
`rateLimitWindowMs` milliseconds per source address.  `log` is the
history of earlier requests as (address, arrival time) pairs, and this
counts those from `addr` inside the window ending at `t`. -/
def windowCount (log : List (String × Int)) (addr : String) (t : Int) : Nat :=
  (log.filter (fun p =>
    p.1 == addr && decide (t - rateLimitWindowMs < p.2) && decide (p.2 ≤ t))).length

/-- Modelled from the spec: an `/api/*` route behind `apiLimiter` and
`checkApiKey`.  A request is rejected with the fixed limiter payload when
its address already has `rateLimitMax` requests inside the window;
otherwise it proceeds to the key check and handler. -/
def apiRoute (log : List (String × Int)) (addr : String) (t : Int)
    (envApiKey headerApiKey : Option String) (st : List Device)
    (handler : List Device → HandlerResult) : HandlerResult :=
  if windowCount log addr t < rateLimitMax then
    gatedRoute envApiKey headerApiKey st handler
  else ⟨st, rateLimitResp, []⟩

/-- A string `m` occurs contiguously inside `s`. -/
def ContainsStr (s m : String) : Prop := m.data <:+: s.data

/-- The registry keys: the `deviceId` field of every record, in order. -/
def regKeys (st : List Device) : List JSValue := st.map (fun d => d.deviceId)

/-- At most one record per device identifier. -/
def RegNoDup (st : List Device) : Prop := (regKeys st).Nodup

/-- Every field of the record is truthy. -/
def GoodDevice (d : Device) : Prop :=
  d.deviceId.truthy ∧ d.botToken.truthy ∧ d.chatId.truthy

/-- A relay oracle for concrete runs: the outbound call always succeeds. -/
def netOk : RelayCall → Except String Unit := fun _ => Except.ok ()

/-- A concrete instance of the locale renderer for concrete runs: epoch
value `n` renders as `[n]`, an invalid date as `Invalid Date`. -/
def fmtBracket : Option Int → String
  | some n => "[" ++ toString n ++ "]"
  | none => "Invalid Date"

/-! ### Helper lemmas -/

theorem set_eq_self_of_getElem? {α : Type} :
    ∀ (l : List α) (i : Nat) (x : α), l[i]? = some x → l.set i x = l
  | [], _, _, h => by simp at h
  | a :: l, 0, x, h => by
    simp at h
    simp [h]
  | a :: l, i + 1, x, h => by
    simp at h
    simp [set_eq_self_of_getElem? l i x h]

theorem truthy_getD {o : Option JSValue} (h : jsTruthy o = true) :
    (o.getD JSValue.null).truthy = true := by
  cases o <;> simp_all [jsTruthy]

/-! ### Claims -/

/-- C2: a request to an `/api/*` route whose `X-Api-Key` header is absent
or not exactly equal to the process-configured secret is answered with
the 401 unauthorized error, the registry is unchanged and no relay call
is made, whichever handler the route carries. -/
theorem gate_reject_no_side_effect (envApiKey headerApiKey : Option String)
    (st : List Device) (handler : List Device → HandlerResult)
    (hk : headerApiKey = none ∨ headerApiKey ≠ envApiKey) :
    gatedRoute envApiKey headerApiKey st handler = ⟨st, unauthorizedResp, []⟩
      ∧ unauthorizedResp.code = 401 := by
  refine ⟨?_, rfl⟩
  rcases hk with h | h
  · subst h
    simp [gatedRoute, checkApiKey, jsTruthyStr]
  · have hbeq : (headerApiKey == envApiKey) = false := beq_eq_false_iff_ne.mpr h
    simp [gatedRoute, checkApiKey, hbeq]

/-- C2 witness: a concrete wrong-key request to the register route is
rejected with 401 and leaves no trace. -/
theorem gate_reject_no_side_effect_witness :
    gatedRoute (some "secret") (some "wrong") []
        (fun s => registerDeviceHandler s ⟨none, none, none⟩)
      = ⟨[], unauthorizedResp, []⟩ ∧ unauthorizedResp.code = 401 :=
  gate_reject_no_side_effect (some "secret") (some "wrong") _ _ (Or.inr (by decide))

/-- C9: the gate fails closed: with `API_KEY` unset, no header value
passes `checkApiKey`, and every gated request is answered with the 401
error, registry unchanged and no relay call. -/
theorem gate_fails_closed (headerApiKey : Option String)
    (st : List Device) (handler : List Device → HandlerResult) :
    checkApiKey none headerApiKey = false
      ∧ gatedRoute none headerApiKey st handler = ⟨st, unauthorizedResp, []⟩
      ∧ unauthorizedResp.code = 401 := by
  have hck : checkApiKey none headerApiKey = false := by
    cases headerApiKey <;> simp [checkApiKey, jsTruthyStr]
  exact ⟨hck, by simp [gatedRoute, hck], rfl⟩

/-- C3: a `processSms` request with a valid key and all required fields
present whose `deviceId` matches no registered record is answered with
the 404 not-found error, and no relay call is attempted. -/
theorem processSms_unknown_device (envApiKey headerApiKey : Option String)
    (net : RelayCall → Except String Unit) (fmt : Option Int → String) (now : Int)
    (st : List Device) (b : ProcessSmsBody)
    (hk : checkApiKey envApiKey headerApiKey = true)
    (h1 : jsTruthy b.deviceId = true) (h2 : jsTruthy b.sender = true)
    (h3 : jsTruthy b.message = true)
    (hfind : st.find? (fun device => device.deviceId == b.deviceId.getD JSValue.null) = none) :
    gatedRoute envApiKey headerApiKey st (fun s => processSmsHandler net fmt now s b)
        = ⟨st, deviceNotFoundResp, []⟩
      ∧ deviceNotFoundResp.code = 404 := by
  refine ⟨?_, rfl⟩
  simp [gatedRoute, hk, processSmsHandler, h1, h2, h3, hfind]

/-- C3 witness: at a concrete unregistered device the response is 404 and
no call is made. -/
theorem processSms_unknown_device_witness :
    gatedRoute (some "k") (some "k") []
        (fun s => processSmsHandler netOk fmtBracket 7 s
          ⟨some (.str "dev9"), some (.str "+1555"), some (.str "hi"), none⟩)
        = ⟨[], deviceNotFoundResp, []⟩
      ∧ deviceNotFoundResp.code = 404 :=
  processSms_unknown_device (some "k") (some "k") netOk fmtBracket 7 []
    ⟨some (.str "dev9"), some (.str "+1555"), some (.str "hi"), none⟩
    (by decide) (by decide) (by decide) (by decide) (by decide)

/-- C4: a request to any of the three `/api/*` POST routes that passes
the access gate but is missing a required field is answered with the 400
missing-parameters error for that route, with the registry unchanged and
no relay call attempted. -/
theorem missing_field_400 (envApiKey headerApiKey : Option String)
    (net : RelayCall → Except String Unit) (fmt : Option Int → String) (now : Int)
    (st : List Device)
    (hk : checkApiKey envApiKey headerApiKey = true) :
    (∀ b : SendBody, b.botToken = none ∨ b.chatId = none ∨ b.message = none →
        gatedRoute envApiKey headerApiKey st (fun s => sendToTelegramHandler net s b)
          = ⟨st, sendMissingResp, []⟩)
  ∧ (∀ b : RegisterBody, b.deviceId = none ∨ b.botToken = none ∨ b.chatId = none →
        gatedRoute envApiKey headerApiKey st (fun s => registerDeviceHandler s b)
          = ⟨st, regMissingResp, []⟩)
  ∧ (∀ b : ProcessSmsBody, b.deviceId = none ∨ b.sender = none ∨ b.message = none →
        gatedRoute envApiKey headerApiKey st (fun s => processSmsHandler net fmt now s b)
          = ⟨st, smsMissingResp, []⟩)
  ∧ sendMissingResp.code = 400 ∧ regMissingResp.code = 400
  ∧ smsMissingResp.code = 400 := by
  refine ⟨fun b hb => ?_, fun b hb => ?_, fun b hb => ?_, rfl, rfl, rfl⟩ <;>
    rcases hb with h | h | h <;>
      simp [gatedRoute, hk, sendToTelegramHandler, registerDeviceHandler,
        processSmsHandler, h, jsTruthy]

/-- C4 witness: concrete one-field-missing requests to the three routes
each get their 400 response and change nothing. -/
theorem missing_field_400_witness :
    (gatedRoute (some "k") (some "k") []
        (fun s => sendToTelegramHandler netOk s ⟨none, some (.str "123"), some (.str "hi")⟩)
      = ⟨[], sendMissingResp, []⟩)
  ∧ (gatedRoute (some "k") (some "k") []
        (fun s => registerDeviceHandler s ⟨some (.str "dev1"), none, some (.str "123")⟩)
      = ⟨[], regMissingResp, []⟩)
  ∧ (gatedRoute (some "k") (some "k") []
        (fun s => processSmsHandler netOk fmtBracket 7 s
          ⟨some (.str "dev1"), some (.str "+1555"), none, none⟩)
      = ⟨[], smsMissingResp, []⟩) :=
  ⟨(missing_field_400 (some "k") (some "k") netOk fmtBracket 7 [] (by decide)).1
      ⟨none, some (.str "123"), some (.str "hi")⟩ (Or.inl rfl),
   (missing_field_400 (some "k") (some "k") netOk fmtBracket 7 [] (by decide)).2.1
      ⟨some (.str "dev1"), none, some (.str "123")⟩ (Or.inr (Or.inl rfl)),
   (missing_field_400 (some "k") (some "k") netOk fmtBracket 7 [] (by decide)).2.2.1
      ⟨some (.str "dev1"), some (.str "+1555"), none, none⟩ (Or.inr (Or.inr rfl))⟩

/-- C6: a `sendToTelegram` request with a valid key and all three fields
truthy whose outbound relay call fails with cause `e` is answered with a
500 error whose message carries the cause text, exactly one relay call
is attempted (no retry), and the registry is unchanged. -/
theorem sendToTelegram_relay_failure (envApiKey headerApiKey : Option String)
    (net : RelayCall → Except String Unit) (st : List Device) (b : SendBody) (e : String)
    (hk : checkApiKey envApiKey headerApiKey = true)
    (h1 : jsTruthy b.botToken = true) (h2 : jsTruthy b.chatId = true)
    (h3 : jsTruthy b.message = true)
    (hfail : net ⟨b.botToken.getD JSValue.null, b.chatId.getD JSValue.null,
        b.message.getD JSValue.null, "HTML"⟩ = Except.error e) :
    gatedRoute envApiKey headerApiKey st (fun s => sendToTelegramHandler net s b)
        = ⟨st, err500Resp ("Ошибка отправки в Telegram: " ++ e),
            [⟨b.botToken.getD JSValue.null, b.chatId.getD JSValue.null,
              b.message.getD JSValue.null, "HTML"⟩]⟩
      ∧ (∃ p, ("Ошибка отправки в Telegram: " ++ e) = p ++ e)
      ∧ (err500Resp ("Ошибка отправки в Telegram: " ++ e)).code = 500 := by
  refine ⟨?_, ⟨"Ошибка отправки в Telegram: ", rfl⟩, rfl⟩
  simp [gatedRoute, hk, sendToTelegramHandler, h1, h2, h3, sendToTelegram, hfail]

/-- C6 witness: a concrete failing relay yields the 500 response carrying
the upstream text, one attempted call, and an unchanged registry. -/
theorem sendToTelegram_relay_failure_witness :
    gatedRoute (some "k") (some "k") []
        (fun s => sendToTelegramHandler (fun _ => Except.error "Request failed with status code 401") s
          ⟨some (.str "badToken"), some (.str "123"), some (.str "hi")⟩)
        = ⟨[], err500Resp ("Ошибка отправки в Telegram: " ++ "Request failed with status code 401"),
            [⟨.str "badToken", .str "123", .str "hi", "HTML"⟩]⟩
      ∧ (∃ p, ("Ошибка отправки в Telegram: " ++ "Request failed with status code 401")
            = p ++ "Request failed with status code 401")
      ∧ (err500Resp ("Ошибка отправки в Telegram: "
            ++ "Request failed with status code 401")).code = 500 :=
  sendToTelegram_relay_failure (some "k") (some "k")
    (fun _ => Except.error "Request failed with status code 401") []
    ⟨some (.str "badToken"), some (.str "123"), some (.str "hi")⟩
    "Request failed with status code 401"
    (by decide) (by decide) (by decide) (by decide) rfl

/-- C7: a `registerDevice` request with a valid key and all three fields
truthy always succeeds with a 200 success response echoing the device
identifier; the response message distinguishes update from creation, the
two messages differ, and in neither case is a relay call made. -/
theorem registerDevice_success (envApiKey headerApiKey : Option String)
    (st : List Device) (b : RegisterBody)
    (hk : checkApiKey envApiKey headerApiKey = true)
    (h1 : jsTruthy b.deviceId = true) (h2 : jsTruthy b.botToken = true)
    (h3 : jsTruthy b.chatId = true) :
    (gatedRoute envApiKey headerApiKey st
        (fun s => registerDeviceHandler s b)).response.code = 200
  ∧ (gatedRoute envApiKey headerApiKey st
        (fun s => registerDeviceHandler s b)).response.status = "success"
  ∧ (gatedRoute envApiKey headerApiKey st
        (fun s => registerDeviceHandler s b)).response.deviceId
      = some (b.deviceId.getD JSValue.null)
  ∧ (gatedRoute envApiKey headerApiKey st
        (fun s => registerDeviceHandler s b)).calls = []
  ∧ (gatedRoute envApiKey headerApiKey st
        (fun s => registerDeviceHandler s b)).response.message
      = (match st.findIdx? (fun device => device.deviceId == b.deviceId.getD JSValue.null) with
         | some _ => "Устройство успешно обновлено"
         | none => "Устройство успешно зарегистрировано")
  ∧ ("Устройство успешно обновлено" : String) ≠ "Устройство успешно зарегистрировано" := by
  cases hidx : st.findIdx? (fun device => device.deviceId == b.deviceId.getD JSValue.null) <;>
    simp [gatedRoute, hk, registerDeviceHandler, h1, h2, h3, hidx,
      regUpdatedResp, regCreatedResp]

/-- C7 witness: a concrete re-registration succeeds with 200, echoes the
identifier and reports an update. -/
theorem registerDevice_success_witness :
    (gatedRoute (some "k") (some "k") [⟨.str "dev1", .str "T", .str "123"⟩]
        (fun s => registerDeviceHandler s
          ⟨some (.str "dev1"), some (.str "T2"), some (.str "456")⟩)).response.code = 200
  ∧ (gatedRoute (some "k") (some "k") [⟨.str "dev1", .str "T", .str "123"⟩]
        (fun s => registerDeviceHandler s
          ⟨some (.str "dev1"), some (.str "T2"), some (.str "456")⟩)).response.status = "success"
  ∧ (gatedRoute (some "k") (some "k") [⟨.str "dev1", .str "T", .str "123"⟩]
        (fun s => registerDeviceHandler s
          ⟨some (.str "dev1"), some (.str "T2"), some (.str "456")⟩)).response.deviceId
      = some ((some (JSValue.str "dev1")).getD JSValue.null)
  ∧ (gatedRoute (some "k") (some "k") [⟨.str "dev1", .str "T", .str "123"⟩]
        (fun s => registerDeviceHandler s
          ⟨some (.str "dev1"), some (.str "T2"), some (.str "456")⟩)).calls = []
  ∧ (gatedRoute (some "k") (some "k") [⟨.str "dev1", .str "T", .str "123"⟩]
        (fun s => registerDeviceHandler s
          ⟨some (.str "dev1"), some (.str "T2"), some (.str "456")⟩)).response.message
      = (match ([⟨.str "dev1", .str "T", .str "123"⟩] : List Device).findIdx?
            (fun device => device.deviceId == (some (JSValue.str "dev1")).getD JSValue.null) with
         | some _ => "Устройство успешно обновлено"
         | none => "Устройство успешно зарегистрировано")
  ∧ ("Устройство успешно обновлено" : String) ≠ "Устройство успешно зарегистрировано" :=
  registerDevice_success (some "k") (some "k") [⟨.str "dev1", .str "T", .str "123"⟩]
    ⟨some (.str "dev1"), some (.str "T2"), some (.str "456")⟩
    (by decide) (by decide) (by decide) (by decide)

/-- C8: an `/api/*` request from an address whose count of requests
inside the 15-minute window has reached the cap of 100 is answered with
the fixed limiter payload, no handler runs, the registry is unchanged
and no relay call is made; the configured window and cap are 15 minutes
and 100 requests. -/
theorem rateLimit_rejects (log : List (String × Int)) (addr : String) (t : Int)
    (envApiKey headerApiKey : Option String) (st : List Device)
    (handler : List Device → HandlerResult)
    (hcount : rateLimitMax ≤ windowCount log addr t) :
    apiRoute log addr t envApiKey headerApiKey st handler = ⟨st, rateLimitResp, []⟩
      ∧ rateLimitWindowMs = 15 * 60 * 1000 ∧ rateLimitMax = 100 := by
  refine ⟨?_, rfl, rfl⟩
  simp [apiRoute, Nat.not_lt.mpr hcount]

/-- C8 witness: an address with 100 requests already inside the window
gets the limiter payload. -/
theorem rateLimit_rejects_witness :
    apiRoute (List.replicate 100 ("10.0.0.5", 0)) "10.0.0.5" 0 (some "k") (some "k") []
        (fun s => registerDeviceHandler s ⟨none, none, none⟩)
      = ⟨[], rateLimitResp, []⟩
      ∧ rateLimitWindowMs = 15 * 60 * 1000 ∧ rateLimitMax = 100 :=
  rateLimit_rejects (List.replicate 100 ("10.0.0.5", 0)) "10.0.0.5" 0
    (some "k") (some "k") [] _ (by decide)

/-- C1: registration is an upsert keeping at most one record per device
identifier: the handler preserves key uniqueness, an existing identifier
is overwritten at its position (same index, same length), and registering
the same identifier twice with different credentials leaves exactly the
one record carrying the second call's credentials. -/
theorem registerDevice_upsert_unique :
    (∀ (st : List Device) (b : RegisterBody), RegNoDup st →
        RegNoDup (registerDeviceHandler st b).devices)
  ∧ (∀ (st : List Device) (b : RegisterBody) (i : Nat),
        jsTruthy b.deviceId = true → jsTruthy b.botToken = true →
        jsTruthy b.chatId = true →
        st.findIdx? (fun device => device.deviceId == b.deviceId.getD JSValue.null) = some i →
        (registerDeviceHandler st b).devices
            = st.set i ⟨b.deviceId.getD JSValue.null, b.botToken.getD JSValue.null,
                b.chatId.getD JSValue.null⟩
          ∧ (registerDeviceHandler st b).devices.length = st.length)
  ∧ (∀ (d bt ci bt2 ci2 : JSValue),
        d.truthy = true → bt.truthy = true → ci.truthy = true →
        bt2.truthy = true → ci2.truthy = true →
        (registerDeviceHandler
            (registerDeviceHandler [] ⟨some d, some bt, some ci⟩).devices
            ⟨some d, some bt2, some ci2⟩).devices = [⟨d, bt2, ci2⟩]) := by
  refine ⟨fun st b hnd => ?_, fun st b i h1 h2 h3 hidx => ?_,
    fun d bt ci bt2 ci2 h1 h2 h3 h4 h5 => ?_⟩
  · by_cases hv : (!jsTruthy b.deviceId || !jsTruthy b.botToken || !jsTruthy b.chatId) = true
    · simpa [registerDeviceHandler, hv] using hnd
    · rw [Bool.not_eq_true] at hv
      cases hidx : st.findIdx?
          (fun device => device.deviceId == b.deviceId.getD JSValue.null) with
      | none =>
        have hnone := List.findIdx?_eq_none_iff.mp hidx
        simp only [registerDeviceHandler, hv, Bool.false_eq_true, if_false, hidx]
        simp only [RegNoDup, regKeys, List.map_append, List.map_cons, List.map_nil]
        rw [List.nodup_append]
        refine ⟨hnd, List.nodup_singleton _, ?_⟩
        intro a ha hb
        simp only [List.mem_map] at ha
        obtain ⟨dev, hdev, hdevEq⟩ := ha
        simp only [List.mem_singleton] at hb
        have := hnone dev hdev
        rw [hdevEq, hb] at this
        simp at this
      | some i =>
        obtain ⟨hlt, hfi⟩ := List.findIdx?_eq_some_iff_findIdx_eq.mp hidx
        have hp : ((st.get ⟨i, hlt⟩).deviceId == b.deviceId.getD JSValue.null) = true := by
          subst hfi
          simpa using
            @List.findIdx_getElem _ (fun device => device.deviceId == b.deviceId.getD JSValue.null) st hlt
        have hkey : (regKeys st)[i]? = some (b.deviceId.getD JSValue.null) := by
          have hEq := eq_of_beq hp
          simp [regKeys, List.getElem?_map, List.getElem?_eq_getElem hlt, ← hEq]
        have hkeys : regKeys (st.set i ⟨b.deviceId.getD JSValue.null,
            b.botToken.getD JSValue.null, b.chatId.getD JSValue.null⟩) = regKeys st := by
          simp only [regKeys, List.map_set]
          exact set_eq_self_of_getElem? _ i _ hkey
        simp only [registerDeviceHandler, hv, Bool.false_eq_true, if_false, hidx]
        unfold RegNoDup
        rw [hkeys]
        exact hnd
  · constructor <;> simp [registerDeviceHandler, h1, h2, h3, hidx]
  · simp [registerDeviceHandler, jsTruthy, h1, h2, h3, h4, h5, List.findIdx?_cons]

/-- C1 witness: registering `dev1` twice leaves exactly one record with
the second credentials; the invariant and in-place parts are instantiated
at the same concrete state. -/
theorem registerDevice_upsert_unique_witness :
    RegNoDup (registerDeviceHandler [⟨.str "dev1", .str "T", .str "123"⟩]
        ⟨some (.str "dev1"), some (.str "T2"), some (.str "456")⟩).devices
  ∧ ((registerDeviceHandler [⟨.str "dev1", .str "T", .str "123"⟩]
        ⟨some (.str "dev1"), some (.str "T2"), some (.str "456")⟩).devices
      = ([⟨.str "dev1", .str "T", .str "123"⟩] : List Device).set 0
          ⟨(some (JSValue.str "dev1")).getD JSValue.null,
            (some (JSValue.str "T2")).getD JSValue.null,
            (some (JSValue.str "456")).getD JSValue.null⟩
    ∧ (registerDeviceHandler [⟨.str "dev1", .str "T", .str "123"⟩]
        ⟨some (.str "dev1"), some (.str "T2"), some (.str "456")⟩).devices.length
      = ([⟨.str "dev1", .str "T", .str "123"⟩] : List Device).length)
  ∧ (registerDeviceHandler
        (registerDeviceHandler [] ⟨some (.str "dev1"), some (.str "T"), some (.str "123")⟩).devices
        ⟨some (.str "dev1"), some (.str "T2"), some (.str "456")⟩).devices
      = [⟨.str "dev1", .str "T2", .str "456"⟩] :=
  ⟨registerDevice_upsert_unique.1 [⟨.str "dev1", .str "T", .str "123"⟩]
      ⟨some (.str "dev1"), some (.str "T2"), some (.str "456")⟩
      (by unfold RegNoDup regKeys; decide),
   registerDevice_upsert_unique.2.1 [⟨.str "dev1", .str "T", .str "123"⟩]
      ⟨some (.str "dev1"), some (.str "T2"), some (.str "456")⟩ 0
      (by decide) (by decide) (by decide) (by decide),
   registerDevice_upsert_unique.2.2 (.str "dev1") (.str "T") (.str "123")
      (.str "T2") (.str "456") (by decide) (by decide) (by decide) (by decide) (by decide)⟩

/-- C10: every record ever stored in the registry has truthy fields:
registration rejects any falsy field value with the 400 response and an
unchanged registry, truthiness of all records is preserved by the
handler, and a relay performed by `processSms` therefore never uses a
falsy stored bot token or chat identifier. -/
theorem registry_truthy_invariant :
    (∀ (st : List Device) (b : RegisterBody),
        (∀ d ∈ st, GoodDevice d) →
        ∀ d ∈ (registerDeviceHandler st b).devices, GoodDevice d)
  ∧ (∀ (st : List Device) (b : RegisterBody),
        (jsTruthy b.deviceId = false ∨ jsTruthy b.botToken = false ∨
          jsTruthy b.chatId = false) →
        registerDeviceHandler st b = ⟨st, regMissingResp, []⟩)
  ∧ (∀ (net : RelayCall → Except String Unit) (fmt : Option Int → String) (now : Int)
        (st : List Device) (b : ProcessSmsBody) (call : RelayCall),
        (∀ d ∈ st, GoodDevice d) →
        call ∈ (processSmsHandler net fmt now st b).calls →
        call.botToken.truthy = true ∧ call.chatId.truthy = true) := by
  refine ⟨fun st b hgood d hd => ?_, fun st b hfalsy => ?_,
    fun net fmt now st b call hgood hc => ?_⟩
  · by_cases hv : (!jsTruthy b.deviceId || !jsTruthy b.botToken || !jsTruthy b.chatId) = true
    · rw [registerDeviceHandler, if_pos hv] at hd
      exact hgood d hd
    · rw [Bool.not_eq_true] at hv
      have hts : (jsTruthy b.deviceId = true ∧ jsTruthy b.botToken = true) ∧
          jsTruthy b.chatId = true := by
        simpa using hv
      obtain ⟨⟨h1, h2⟩, h3⟩ := hts
      cases hidx : st.findIdx?
          (fun device => device.deviceId == b.deviceId.getD JSValue.null) with
      | none =>
        simp only [registerDeviceHandler, hv, Bool.false_eq_true, if_false, hidx,
          List.mem_append, List.mem_singleton] at hd
        rcases hd with hd | hd
        · exact hgood d hd
        · subst hd
          exact ⟨truthy_getD h1, truthy_getD h2, truthy_getD h3⟩
      | some i =>
        simp only [registerDeviceHandler, hv, Bool.false_eq_true, if_false, hidx] at hd
        rcases List.mem_or_eq_of_mem_set hd with hd | hd
        · exact hgood d hd
        · subst hd
          exact ⟨truthy_getD h1, truthy_getD h2, truthy_getD h3⟩
  · rcases hfalsy with h | h | h <;> simp [registerDeviceHandler, h]
  · by_cases hv : (!jsTruthy b.deviceId || !jsTruthy b.sender || !jsTruthy b.message) = true
    · rw [processSmsHandler, if_pos hv] at hc
      simp at hc
    · rw [Bool.not_eq_true] at hv
      cases hfind : st.find?
          (fun device => device.deviceId == b.deviceId.getD JSValue.null) with
      | none =>
        simp only [processSmsHandler, hv, Bool.false_eq_true, if_false, hfind] at hc
        simp at hc
      | some device =>
        have hdev := hgood device (List.mem_of_find?_eq_some hfind)
        cases hnet : net ⟨device.botToken, device.chatId,
            JSValue.str (smsTemplate (b.sender.getD JSValue.null)
              (if jsTruthy b.timestamp then fmt (jsParseInt (b.timestamp.getD JSValue.null))
               else fmt (some now))
              (b.message.getD JSValue.null)), "HTML"⟩ with
        | ok r =>
          simp only [processSmsHandler, hv, Bool.false_eq_true, if_false, hfind,
            sendToTelegram, hnet, List.mem_singleton] at hc
          subst hc
          exact ⟨hdev.2.1, hdev.2.2⟩
        | error e =>
          simp only [processSmsHandler, hv, Bool.false_eq_true, if_false, hfind,
            sendToTelegram, hnet, List.mem_singleton] at hc
          subst hc
          exact ⟨hdev.2.1, hdev.2.2⟩

/-- C10 witness: a concrete upsert keeps all records truthy, a concrete
empty-string `deviceId` is rejected with 400 and no registry change, and
the concrete relay call of a `processSms` run uses truthy credentials. -/
theorem registry_truthy_invariant_witness :
    (∀ d ∈ (registerDeviceHandler [⟨.str "dev1", .str "T", .str "123"⟩]
        ⟨some (.str "dev1"), some (.str "T2"), some (.str "456")⟩).devices, GoodDevice d)
  ∧ registerDeviceHandler [] ⟨some (.str ""), some (.str "T"), some (.str "123")⟩
      = ⟨[], regMissingResp, []⟩
  ∧ ((⟨.str "T", .str "123",
        .str (smsTemplate (.str "s") "[7]" (.str "m")), "HTML"⟩ : RelayCall).botToken.truthy = true
      ∧ (⟨.str "T", .str "123",
        .str (smsTemplate (.str "s") "[7]" (.str "m")), "HTML"⟩ : RelayCall).chatId.truthy = true) :=
  ⟨registry_truthy_invariant.1 [⟨.str "dev1", .str "T", .str "123"⟩]
      ⟨some (.str "dev1"), some (.str "T2"), some (.str "456")⟩
      (by simp only [GoodDevice]; decide),
   registry_truthy_invariant.2.1 [] ⟨some (.str ""), some (.str "T"), some (.str "123")⟩
      (Or.inl (by decide)),
   registry_truthy_invariant.2.2 netOk fmtBracket 7
      [⟨.str "dev1", .str "T", .str "123"⟩]
      ⟨some (.str "dev1"), some (.str "s"), some (.str "m"), none⟩
      ⟨.str "T", .str "123", .str (smsTemplate (.str "s") "[7]" (.str "m")), "HTML"⟩
      (by simp only [GoodDevice]; decide) (by decide)⟩

/-- The template embeds the sender string, the formatted time and the
message text contiguously. -/
theorem containsStr_smsTemplate (s : JSValue) (ft : String) (m : JSValue) :
    ContainsStr (smsTemplate s ft m) (jsToString s)
  ∧ ContainsStr (smsTemplate s ft m) ft
  ∧ ContainsStr (smsTemplate s ft m) (jsToString m) := by
  refine ⟨⟨"📱 <b>Новое SMS</b>\n\nОт: <b>".data,
      ("</b>\nВремя: " ++ ft ++ "\n\nСообщение:\n" ++ jsToString m).data, ?_⟩,
    ⟨("📱 <b>Новое SMS</b>\n\nОт: <b>" ++ jsToString s ++ "</b>\nВремя: ").data,
      ("\n\nСообщение:\n" ++ jsToString m).data, ?_⟩,
    ⟨("📱 <b>Новое SMS</b>\n\nОт: <b>" ++ jsToString s ++ "</b>\nВремя: " ++ ft
        ++ "\n\nСообщение:\n").data, [], ?_⟩⟩ <;>
  simp [smsTemplate, String.data_append, List.append_assoc]

/-- A found device leads to exactly one relay call with the device's
stored credentials and the formatted template, whatever the outcome of
the outbound call; the registry is left unchanged. -/
theorem processSms_found (net : RelayCall → Except String Unit)
    (fmt : Option Int → String) (now : Int)
    (st : List Device) (b : ProcessSmsBody) (device : Device)
    (h1 : jsTruthy b.deviceId = true) (h2 : jsTruthy b.sender = true)
    (h3 : jsTruthy b.message = true)
    (hfind : st.find? (fun dev => dev.deviceId == b.deviceId.getD JSValue.null) = some device) :
    (processSmsHandler net fmt now st b).devices = st
    ∧ (processSmsHandler net fmt now st b).calls
      = [⟨device.botToken, device.chatId,
          JSValue.str (smsTemplate (b.sender.getD JSValue.null)
            (if jsTruthy b.timestamp then fmt (jsParseInt (b.timestamp.getD JSValue.null))
             else fmt (some now))
            (b.message.getD JSValue.null)), "HTML"⟩] := by
  cases hnet : net ⟨device.botToken, device.chatId,
      JSValue.str (smsTemplate (b.sender.getD JSValue.null)
        (if jsTruthy b.timestamp then fmt (jsParseInt (b.timestamp.getD JSValue.null))
         else fmt (some now))
        (b.message.getD JSValue.null)), "HTML"⟩ with
  | ok r =>
    constructor <;> simp [processSmsHandler, h1, h2, h3, hfind, sendToTelegram, hnet]
  | error e =>
    constructor <;> simp [processSmsHandler, h1, h2, h3, hfind, sendToTelegram, hnet]

/-- C5 counterexample: with the registered device `dev1`, a request
supplying `timestamp = 0` (a valid epoch-milliseconds value) does not
relay a body containing the timestamp rendered from the supplied value:
the code tests truthiness, `0` is falsy, and the current time is
rendered instead. -/
theorem processSms_timestamp_claim_cex :
    ¬ ∃ call : RelayCall,
      (gatedRoute (some "k") (some "k") [⟨.str "dev1", .str "T", .str "123"⟩]
          (fun s => processSmsHandler netOk fmtBracket 1 s
            ⟨some (.str "dev1"), some (.str "s"), some (.str "m"), some (.num 0)⟩)).calls
        = [call]
      ∧ call.botToken = .str "T"
      ∧ call.chatId = .str "123"
      ∧ ContainsStr (jsToString call.text) (jsToString (.str "s"))
      ∧ ContainsStr (jsToString call.text) (jsToString (.str "m"))
      ∧ ContainsStr (jsToString call.text) (fmtBracket (jsParseInt (.num 0))) := by
  rintro ⟨call, hcalls, hbt, hci, hs, hm, hts⟩
  have hc0 : (gatedRoute (some "k") (some "k") [⟨.str "dev1", .str "T", .str "123"⟩]
      (fun s => processSmsHandler netOk fmtBracket 1 s
        ⟨some (.str "dev1"), some (.str "s"), some (.str "m"), some (.num 0)⟩)).calls
      = [⟨.str "T", .str "123", .str (smsTemplate (.str "s") "[1]" (.str "m")), "HTML"⟩] := by
    decide
  rw [hc0] at hcalls
  injection hcalls with hcall hnil
  rw [← hcall] at hts
  revert hts
  unfold ContainsStr
  decide

/-- C5 (amended): a `processSms` request with a valid key, truthy
required fields and a registered device relays exactly one message with
the device's stored bot token and chat identifier, leaves the registry
unchanged, and the relayed body contains the sender string, the message
text, and a timestamp rendered by the locale formatter from the supplied
epoch-milliseconds value when the timestamp field is truthy, and from
the current time when it is absent or falsy. -/
theorem processSms_relay_contents (envApiKey headerApiKey : Option String)
    (net : RelayCall → Except String Unit) (fmt : Option Int → String) (now : Int)
    (st : List Device) (b : ProcessSmsBody) (device : Device)
    (hk : checkApiKey envApiKey headerApiKey = true)
    (h1 : jsTruthy b.deviceId = true) (h2 : jsTruthy b.sender = true)
    (h3 : jsTruthy b.message = true)
    (hfind : st.find? (fun dev => dev.deviceId == b.deviceId.getD JSValue.null) = some device) :
    ∃ call : RelayCall,
      (gatedRoute envApiKey headerApiKey st
          (fun s => processSmsHandler net fmt now s b)).calls = [call]
      ∧ (gatedRoute envApiKey headerApiKey st
          (fun s => processSmsHandler net fmt now s b)).devices = st
      ∧ call.botToken = device.botToken
      ∧ call.chatId = device.chatId
      ∧ ContainsStr (jsToString call.text) (jsToString (b.sender.getD JSValue.null))
      ∧ ContainsStr (jsToString call.text) (jsToString (b.message.getD JSValue.null))
      ∧ ContainsStr (jsToString call.text)
          (if jsTruthy b.timestamp then fmt (jsParseInt (b.timestamp.getD JSValue.null))
           else fmt (some now)) := by
  obtain ⟨hdevs, hcalls⟩ := processSms_found net fmt now st b device h1 h2 h3 hfind
  refine ⟨⟨device.botToken, device.chatId,
      JSValue.str (smsTemplate (b.sender.getD JSValue.null)
        (if jsTruthy b.timestamp then fmt (jsParseInt (b.timestamp.getD JSValue.null))
         else fmt (some now))
        (b.message.getD JSValue.null)), "HTML"⟩,
    ?_, ?_, rfl, rfl, ?_, ?_, ?_⟩
  · simp [gatedRoute, hk, hcalls]
  · simp [gatedRoute, hk, hdevs]
  · exact (containsStr_smsTemplate _ _ _).1
  · exact (containsStr_smsTemplate _ _ _).2.2
  · exact (containsStr_smsTemplate _ _ _).2.1

/-- C5 witness: the end-to-end scenario of the spec: device `dev1` with
token `T` and chat `123`, SMS from `+1555` with body `hello`, timestamp
absent: one relay call with the stored credentials whose body contains
`+1555`, `hello` and the current time rendered by the formatter. -/
theorem processSms_relay_contents_witness :
    ∃ call : RelayCall,
      (gatedRoute (some "k") (some "k") [⟨.str "dev1", .str "T", .str "123"⟩]
          (fun s => processSmsHandler netOk fmtBracket 7 s
            ⟨some (.str "dev1"), some (.str "+1555"), some (.str "hello"), none⟩)).calls = [call]
      ∧ (gatedRoute (some "k") (some "k") [⟨.str "dev1", .str "T", .str "123"⟩]
          (fun s => processSmsHandler netOk fmtBracket 7 s
            ⟨some (.str "dev1"), some (.str "+1555"), some (.str "hello"), none⟩)).devices
        = [⟨.str "dev1", .str "T", .str "123"⟩]
      ∧ call.botToken = (⟨.str "dev1", .str "T", .str "123"⟩ : Device).botToken
      ∧ call.chatId = (⟨.str "dev1", .str "T", .str "123"⟩ : Device).chatId
      ∧ ContainsStr (jsToString call.text)
          (jsToString ((some (JSValue.str "+1555")).getD JSValue.null))
      ∧ ContainsStr (jsToString call.text)
          (jsToString ((some (JSValue.str "hello")).getD JSValue.null))
      ∧ ContainsStr (jsToString call.text)
          (if jsTruthy (none : Option JSValue) then
            fmtBracket (jsParseInt ((none : Option JSValue).getD JSValue.null))
           else fmtBracket (some 7)) :=
  processSms_relay_contents (some "k") (some "k") netOk fmtBracket 7
    [⟨.str "dev1", .str "T", .str "123"⟩]
    ⟨some (.str "dev1"), some (.str "+1555"), some (.str "hello"), none⟩
    ⟨.str "dev1", .str "T", .str "123"⟩
    (by decide) (by decide) (by decide) (by decide) (by decide)

end SmsServer

